import Mathlib

/-!
Shallow embedding of the request broker (`RequestQueue`) of the
mcp-web3-wallet-tester repository, together with the supporting policy and
request-classification code (`types.ts`, `request-utils.ts`), and proofs of
the specification claims about it.

Modelling conventions:
* JavaScript exceptions are modelled with `Except JsError`; a thrown
  `Error(msg)` with an attached numeric `code` property becomes
  `JsError.mk msg (some code)`, and one without a code becomes
  `JsError.mk msg none`.
* JavaScript numbers that feed `Math.floor`/`BigInt` conversions
  (`Policy.maxValueEth`, parsed balances) are modelled as exact fractions
  (`JsNum`); for the decimal literals the program actually uses (such as
  `0.1`) the floored wei amounts coincide with the IEEE-754 results.
* `randomUUID`-derived identifiers are modelled by a fresh counter in the
  queue state; only freshness matters to the code.
* Promise completion callbacks (`resolve`/`reject` stored on a pending
  request) are modelled by an append-only `completions` log in the queue
  state: settling the promise of request `id` with outcome `o` appends
  `(id, o)`.
* Waiter callbacks registered by `waitForRequest` are modelled by a list of
  waiter tokens plus an append-only `notified` log recording which waiter
  was invoked with which serialized request.
* Calls into the signing backend (the `Wallet` collaborator) are recorded in
  an append-only `backendCalls` log.
* `Date.now()` is modelled by an explicit clock trace (`List Nat`) consumed
  one sample per drain-loop iteration; an exhausted trace reads as a time
  past the deadline.
-/

set_option autoImplicit false

namespace WalletTester

/-- A JavaScript `Error` as thrown by the queue: its message plus the optional
numeric `code` property the source attaches for EIP-1193 errors. -/
structure JsError where
  message : String
  code : Option Int
deriving Repr, DecidableEq

/-- One entry of the `EIP1193_ERRORS` table in `types.ts`. -/
structure ErrorEntry where
  code : Int
  message : String
deriving Repr, DecidableEq

/-- The `EIP1193_ERRORS` table shape from `types.ts`. -/
structure EIP1193Errors where
  USER_REJECTED : ErrorEntry
  UNAUTHORIZED : ErrorEntry
  UNSUPPORTED_METHOD : ErrorEntry
  DISCONNECTED : ErrorEntry
  CHAIN_DISCONNECTED : ErrorEntry
deriving Repr, DecidableEq

/-- `EIP1193_ERRORS` from `types.ts`. -/
def EIP1193_ERRORS : EIP1193Errors :=
  { USER_REJECTED := ⟨4001, "User rejected the request"⟩
    UNAUTHORIZED := ⟨4100, "Unauthorized"⟩
    UNSUPPORTED_METHOD := ⟨4200, "Unsupported method"⟩
    DISCONNECTED := ⟨4900, "Disconnected"⟩
    CHAIN_DISCONNECTED := ⟨4901, "Chain disconnected"⟩ }

/-- `TransactionParams` from `types.ts` (all fields optional strings at the
boundary).  The source fields `from` and `to` are renamed
`fromAddr`/`toAddr` because `from` and `to` are Lean keywords. -/
structure TransactionParams where
  fromAddr : Option String := none
  toAddr : Option String := none
  value : Option String := none
  data : Option String := none
  gas : Option String := none
  gasPrice : Option String := none
  maxFeePerGas : Option String := none
  maxPriorityFeePerGas : Option String := none
  nonce : Option String := none
deriving Repr, DecidableEq

/-- A request parameter as it travels through the queue: the source treats
params as `unknown[]` and casts positionally.  We model the shapes the code
actually casts to: plain strings, transaction-parameter objects, the
`{ chainId }` object of `wallet_switchEthereumChain`, the abstract result of
`JSON.parse` on a string (`jsonOf`), and `undefined`. -/
inductive JsParam where
  | str (s : String)
  | tx (t : TransactionParams)
  | chainObj (chainId : Option String)
  | jsonOf (s : String)
  | undef
deriving Repr, DecidableEq

/-- JavaScript truthiness of a parameter value: `undefined` and the empty
string are falsy, objects and non-empty strings are truthy. -/
def JsParam.truthy : JsParam → Bool
  | .str s => s ≠ ""
  | .undef => false
  | _ => true

/-- The `params[i] as TransactionParams` cast: property access on a value that
is not a transaction object yields `undefined` for every field. -/
def JsParam.asTx : JsParam → TransactionParams
  | .tx t => t
  | _ => {}

/-- The `params[i] as string` cast; non-string values are abstracted to `""`
(no claim exercises a mis-typed cast). -/
def JsParam.asStr : JsParam → String
  | .str s => s
  | _ => ""

/-- A transaction receipt as returned by the backend (`wallet.ts`), with the
numeric fields the queue converts to hex. -/
structure Receipt where
  blockNumber : Nat
  cumulativeGasUsed : Nat
  effectiveGasPrice : Nat
  gasUsed : Nat
  transactionIndex : Nat
  type : String
  status : String
deriving Repr, DecidableEq

/-- The receipt object `processRequest` returns for `eth_getTransactionReceipt`,
with BigInt fields rendered as hex strings. -/
structure ReceiptOut where
  blockNumber : String
  cumulativeGasUsed : String
  effectiveGasPrice : String
  gasUsed : String
  transactionIndex : Nat
  type : String
  status : String
deriving Repr, DecidableEq

/-- A JSON-serializable result value produced by `processRequest`. -/
inductive JsValue where
  | str (s : String)
  | arr (xs : List JsValue)
  | boolv (b : Bool)
  | nullv
  | receipt (r : ReceiptOut)
deriving Repr

/-- A JavaScript number as the broker uses one (policy caps, parsed
balances), modelled as the exact fraction `num / den` with a positive
denominator.  The decimal literals the program uses are exactly
representable, and for them the floor and rounding results below coincide
with IEEE-754 double arithmetic. -/
structure JsNum where
  num : Int
  den : Nat := 1
deriving Repr, DecidableEq

/-- Strict `a > b` on JS numbers (denominators are positive). -/
def JsNum.gt (a b : JsNum) : Bool :=
  a.num * b.den > b.num * a.den

/-- `BigInt(Math.floor(q * 1e18))`: the floored wei amount of an
ETH-denominated number. -/
def JsNum.weiFloor (q : JsNum) : Int :=
  Int.fdiv (q.num * 1000000000000000000) q.den

/-- Policy `mode` field from `types.ts`. -/
inductive PolicyMode where
  | manual
  | auto
deriving Repr, DecidableEq

/-- `WalletPolicy` from `types.ts`.  Absent optional fields are `none`;
`maxValueEth` is a JS number. -/
structure WalletPolicy where
  mode : PolicyMode
  allowMethods : Option (List String) := none
  denyMethods : Option (List String) := none
  maxValueEth : Option JsNum := none
  allowTo : Option (List String) := none
  denyTo : Option (List String) := none
  chainId : Option Nat := none
deriving Repr, DecidableEq

/-- `DEFAULT_POLICY` from `types.ts`. -/
def DEFAULT_POLICY : WalletPolicy :=
  { mode := .auto
    allowMethods := some
      ["eth_chainId", "eth_accounts", "eth_requestAccounts", "eth_blockNumber",
       "eth_gasPrice", "eth_getBalance", "eth_getTransactionCount",
       "eth_estimateGas", "net_version", "wallet_switchEthereumChain",
       "wallet_addEthereumChain"]
    denyMethods := some []
    maxValueEth := some ⟨1, 10⟩ }

/-- The `list?.includes(x)` idiom used on the optional policy arrays:
an absent list never includes anything. -/
def optIncludes (o : Option (List String)) (m : String) : Bool :=
  match o with
  | some l => l.contains m
  | none => false

/-- Value of a single hexadecimal digit character, if it is one. -/
def hexDigitVal (c : Char) : Option Nat :=
  if '0' ≤ c ∧ c ≤ '9' then some (c.toNat - 48)
  else if 'a' ≤ c ∧ c ≤ 'f' then some (c.toNat - 87)
  else if 'A' ≤ c ∧ c ≤ 'F' then some (c.toNat - 55)
  else none

/-- Accumulate a digit list in the given base; `none` on any non-digit or on
an empty digit list. -/
def parseDigits (base : Nat) : List Char → Nat → Option Nat
  | [], acc => some acc
  | c :: cs, acc =>
    match hexDigitVal c with
    | some d => if d < base then parseDigits base cs (acc * base + d) else none
    | none => none

/-- `BigInt(string)` as the queue uses it: a `0x`-prefixed hex string or a
plain decimal string parses to a natural number, anything else throws
(`none`).  (As in JS, the empty string parses to `0`.) -/
def jsBigInt (s : String) : Option Nat :=
  let cs := s.toList
  match cs with
  | '0' :: 'x' :: rest =>
    match rest with
    | [] => none
    | _ => parseDigits 16 rest 0
  | [] => some 0
  | _ => parseDigits 10 cs 0

/-- Decimal rendering of a nonnegative rational fraction part: successive
digits of `num / den`, stopping when the remainder is zero or after `fuel`
digits. -/
def fracDigits : Nat → Nat → Nat → String
  | 0, _, _ => ""
  | _, 0, _ => ""
  | fuel + 1, num, den =>
    let d := num * 10 / den
    let rem := num * 10 % den
    String.mk [Char.ofNat (48 + d)] ++ fracDigits fuel rem den

/-- String interpolation of a JS number (`toString`): integer part, then the
decimal expansion of the fraction part (exact for the terminating decimals
the program uses, truncated at 17 digits otherwise). -/
def jsNumToString (q : JsNum) : String :=
  let sign := if q.num < 0 then "-" else ""
  let m := q.num.natAbs
  let ip := m / q.den
  let rem := m % q.den
  if rem = 0 then sign ++ toString ip
  else sign ++ toString ip ++ "." ++ fracDigits 17 rem q.den

/-- The decision record returned by `shouldAutoApprove`. -/
structure ApproveDecision where
  approve : Bool
  reason : Option String := none
deriving Repr, DecidableEq

/-- A pending wallet request (`WalletRequest` in `types.ts`).  The
`resolve`/`reject` completion callbacks are modelled by the queue state's
`completions` log rather than stored functions. -/
structure WalletRequest where
  id : String
  method : String
  params : List JsParam
  timestamp : Nat
deriving Repr, DecidableEq

/-- The default denial at the bottom of `shouldAutoApprove`: unknown methods
are never auto-approved. -/
def notInAllowList (method : String) : Except JsError ApproveDecision :=
  .ok { approve := false, reason := some ("Method " ++ method ++ " not in allow list") }

/-- The recipient allow-list and deny-list checks of `shouldAutoApprove`'s
transaction branch (the source's two guarded `if` blocks over
`txParams.to`), falling through to the default denial. -/
def recipientChecks (policy : WalletPolicy) (method : String)
    (txParams : TransactionParams) : Except JsError ApproveDecision :=
  let afterAllow : Except JsError ApproveDecision :=
    match txParams.toAddr with
    | some toA =>
      if toA ≠ "" ∧ optIncludes policy.denyTo toA then
        .ok { approve := false, reason := some "Recipient is in deny list" }
      else notInAllowList method
    | none => notInAllowList method
  match txParams.toAddr, policy.allowTo with
  | some toA, some allowTo =>
    if toA ≠ "" ∧ allowTo.length > 0 then
      if ¬ allowTo.contains toA then
        .ok { approve := false, reason := some "Recipient not in allow list" }
      else afterAllow
    else afterAllow
  | _, _ => afterAllow

/-- The value-cap check of `shouldAutoApprove`'s transaction branch: a
truthy `value` is parsed with `BigInt` (a parse failure throws, modelled as
`Except.error`) and compared against the floored wei cap; under-cap values
fall through to the recipient checks. -/
def valueCapCheck (policy : WalletPolicy) (method : String)
    (txParams : TransactionParams) : Except JsError ApproveDecision :=
  match txParams.value with
  | some v =>
    if v ≠ "" then
      match jsBigInt v with
      | none => .error { message := "Cannot convert " ++ v ++ " to a BigInt", code := none }
      | some valueWei =>
        if (valueWei : Int) > (policy.maxValueEth.getD ⟨0, 1⟩).weiFloor then
          .ok { approve := false
                reason := some ("Transaction value exceeds max ("
                  ++ (match policy.maxValueEth with
                      | some q => jsNumToString q
                      | none => "undefined") ++ " ETH)") }
        else recipientChecks policy method txParams
    else recipientChecks policy method txParams
  | none => recipientChecks policy method txParams

/-- `RequestQueue.shouldAutoApprove` from the queue source: policy decision
for a single request.  Manual mode denies; the method deny list is checked
before the allow list; allow-listed methods approve; transactions with a
truthy first parameter go through the value-cap and recipient checks;
everything else is the default denial. -/
def shouldAutoApprove (policy : WalletPolicy) (request : WalletRequest) :
    Except JsError ApproveDecision :=
  if policy.mode = .manual then
    .ok { approve := false, reason := some "Policy mode is manual" }
  else
    let method := request.method
    if optIncludes policy.denyMethods method then
      .ok { approve := false, reason := some ("Method " ++ method ++ " is in deny list") }
    else if optIncludes policy.allowMethods method then
      .ok { approve := true }
    else if method = "eth_sendTransaction" ∧ ((request.params.headD .undef).truthy = true) then
      valueCapCheck policy method ((request.params.headD .undef).asTx)
    else notInAllowList method

/-- Serializable view of a pending request (`SerializedWalletRequest`). -/
structure SerializedWalletRequest where
  id : String
  method : String
  params : List JsParam
  timestamp : Nat
deriving Repr, DecidableEq

/-- A call made into the signing backend, as recorded in the model trace. -/
inductive BackendCall where
  | sendTransaction (tx : TransactionParams)
  | signMessage (message : String)
  | signTypedData (payload : JsParam)
  | getBalance (address : String)
  | getBlockNumber
  | getGasPrice
  | estimateGas (tx : TransactionParams)
  | getTransactionCount (address : String)
  | getTransactionReceipt (hash : String)
deriving Repr, DecidableEq

/-- The `Wallet` collaborator (`wallet.ts`), modelled as a record of response
functions; fallible backend operations return `Except`. -/
structure Wallet where
  getAddress : String
  getChainId : Nat
  getAccountIndex : Nat
  getBalance : Except JsError String
  getBalanceOf : String → Except JsError String
  sendTransaction : TransactionParams → Except JsError String
  signMessage : String → Except JsError String
  signTypedData : JsParam → Except JsError String
  getBlockNumber : Except JsError Nat
  getGasPrice : Except JsError Nat
  estimateGas : TransactionParams → Except JsError Nat
  getTransactionCount : String → Except JsError Nat
  getTransactionReceipt : String → Except JsError (Option Receipt)

/-- State of a `RequestQueue` instance.  `completions`, `notified` and
`backendCalls` are append-only observation logs (see the module comment);
`nextId`/`nextWaiter` are the fresh-token counters standing in for
`randomUUID` and for waiter-callback identity. -/
structure QueueState where
  requests : List WalletRequest := []
  autoApprove : Bool := false
  waiters : List Nat := []
  nextWaiter : Nat := 0
  subscriptions : List (String × String) := []
  policy : WalletPolicy := DEFAULT_POLICY
  nextId : Nat := 0
  completions : List (String × Except JsError JsValue) := []
  notified : List (Nat × SerializedWalletRequest) := []
  backendCalls : List BackendCall := []
deriving Repr

/-- `n.toString(16)` for a BigInt/number: lowercase hex digits. -/
def hexDigitsOf (n : Nat) : String :=
  String.mk (Nat.toDigits 16 n)

/-- The pervasive `` `0x${n.toString(16)}` `` template. -/
def hexStr (n : Nat) : String :=
  "0x" ++ hexDigitsOf n

/-- `RequestQueue.serializeRequest`: drop the completion callbacks. -/
def serializeRequest (request : WalletRequest) : SerializedWalletRequest :=
  { id := request.id, method := request.method, params := request.params,
    timestamp := request.timestamp }

/-- `RequestQueue.getPendingRequests`. -/
def getPendingRequests (st : QueueState) : List SerializedWalletRequest :=
  st.requests.map serializeRequest

/-- `RequestQueue.getRequest`. -/
def getRequest (st : QueueState) (id : String) : Option WalletRequest :=
  st.requests.find? (fun r => r.id == id)

/-- `RequestQueue.getPendingCount`. -/
def getPendingCount (st : QueueState) : Nat :=
  st.requests.length

/-- `RequestQueue.setAutoApprove`. -/
def setAutoApprove (st : QueueState) (enabled : Bool) : QueueState :=
  { st with autoApprove := enabled }

/-- `RequestQueue.isAutoApproveEnabled`. -/
def isAutoApproveEnabled (st : QueueState) : Bool :=
  st.autoApprove

/-- `RequestQueue.getPolicy` (returns a copy; copies are equal values here). -/
def getPolicy (st : QueueState) : WalletPolicy :=
  st.policy

/-- The `Error` thrown by `approveRequest`/`rejectRequest` on a missing id. -/
def notFoundError (id : String) : JsError :=
  { message := "Request " ++ id ++ " not found", code := none }

/-- `parseFloat` on a balance string, modelled exactly: an optional sign,
leading digits, and an optional fraction part; no digits at all models the
`NaN` outcome (`none`). -/
def parseFloatNum (s : String) : Option JsNum :=
  let core (cs : List Char) : Option JsNum :=
    let intPart := cs.takeWhile (fun c => '0' ≤ c ∧ c ≤ '9')
    let rest := cs.drop intPart.length
    match rest with
    | '.' :: fracCs =>
      let fracPart := fracCs.takeWhile (fun c => '0' ≤ c ∧ c ≤ '9')
      if intPart = [] ∧ fracPart = [] then none
      else
        match parseDigits 10 intPart 0, parseDigits 10 fracPart 0 with
        | some ip, some fp =>
          some { num := (ip * 10 ^ fracPart.length + fp : Nat), den := 10 ^ fracPart.length }
        | _, _ => none
    | _ =>
      if intPart = [] then none
      else (parseDigits 10 intPart 0).map (fun ip => { num := (ip : Int) })
  match s.toList with
  | '-' :: cs => (core cs).map (fun q => { q with num := -q.num })
  | '+' :: cs => core cs
  | cs => core cs

/-- `RequestQueue.createSubscription`: register the subscription and return its
id; an unknown type throws.  The polling `setInterval` timers are runtime
effects outside this state model. -/
def createSubscription (st : QueueState) (type : String) (params : JsParam) :
    Except JsError JsValue × QueueState :=
  let id := "0xsub" ++ toString st.nextId
  let _ := params
  if type = "newHeads" ∨ type = "newPendingTransactions" ∨ type = "logs" then
    (.ok (.str id),
     { st with subscriptions := st.subscriptions ++ [(id, type)], nextId := st.nextId + 1 })
  else
    (.error { message := "Unsupported subscription type: " ++ type, code := none }, st)

/-- `RequestQueue.removeSubscription`: delete and report whether it existed. -/
def removeSubscription (st : QueueState) (subscriptionId : String) :
    Except JsError JsValue × QueueState :=
  match st.subscriptions.find? (fun s => s.1 == subscriptionId) with
  | none => (.ok (.boolv false), st)
  | some _ =>
    (.ok (.boolv true),
     { st with subscriptions := st.subscriptions.filter (fun s => s.1 != subscriptionId) })

/-- Record a fallible backend call: the result and the trace entry. -/
def backendStep {α : Type} (st : QueueState) (call : BackendCall)
    (res : Except JsError α) : Except JsError α × QueueState :=
  (res, { st with backendCalls := st.backendCalls ++ [call] })

/-- `RequestQueue.processRequest`: the method-dispatch switch.  Casts mirror
the source (`params[i] as …`); `JSON.parse` of a typed-data string is
abstracted by the `JsParam.jsonOf` marker. -/
def processRequest (st : QueueState) (wallet : Wallet) (request : WalletRequest) :
    Except JsError JsValue × QueueState :=
  let params := request.params
  match request.method with
  | "eth_requestAccounts" => (.ok (.arr [.str wallet.getAddress]), st)
  | "eth_accounts" => (.ok (.arr [.str wallet.getAddress]), st)
  | "eth_chainId" => (.ok (.str (hexStr wallet.getChainId)), st)
  | "net_version" => (.ok (.str (toString wallet.getChainId)), st)
  | "eth_sendTransaction" =>
    let txParams := (params.headD .undef).asTx
    let (res, st) := backendStep st (.sendTransaction txParams) (wallet.sendTransaction txParams)
    (res.map .str, st)
  | "personal_sign" =>
    let message := (params.headD .undef).asStr
    let (res, st) := backendStep st (.signMessage message) (wallet.signMessage message)
    (res.map .str, st)
  | "eth_sign" =>
    let message := ((params.getD 1 .undef)).asStr
    let (res, st) := backendStep st (.signMessage message) (wallet.signMessage message)
    (res.map .str, st)
  | "eth_signTypedData" =>
    let typedData := match params.getD 1 .undef with
      | .str s => JsParam.jsonOf s
      | other => other
    let (res, st) := backendStep st (.signTypedData typedData) (wallet.signTypedData typedData)
    (res.map .str, st)
  | "eth_signTypedData_v4" =>
    let typedData := match params.getD 1 .undef with
      | .str s => JsParam.jsonOf s
      | other => other
    let (res, st) := backendStep st (.signTypedData typedData) (wallet.signTypedData typedData)
    (res.map .str, st)
  | "eth_getBalance" =>
    let address := (params.headD .undef).asStr
    let (res, st) := backendStep st (.getBalance address) (wallet.getBalanceOf address)
    match res with
    | .error e => (.error e, st)
    | .ok balance =>
      match parseFloatNum balance with
      | none => (.error { message := "Cannot convert NaN to a BigInt", code := none }, st)
      | some q =>
        let wei : Int := q.weiFloor
        let rendered := if wei < 0 then "0x-" ++ hexDigitsOf wei.natAbs else hexStr wei.natAbs
        (.ok (.str rendered), st)
  | "eth_blockNumber" =>
    let (res, st) := backendStep st .getBlockNumber wallet.getBlockNumber
    (res.map (fun n => .str (hexStr n)), st)
  | "eth_gasPrice" =>
    let (res, st) := backendStep st .getGasPrice wallet.getGasPrice
    (res.map (fun n => .str (hexStr n)), st)
  | "eth_estimateGas" =>
    let txParams := (params.headD .undef).asTx
    let (res, st) := backendStep st (.estimateGas txParams) (wallet.estimateGas txParams)
    (res.map (fun n => .str (hexStr n)), st)
  | "eth_getTransactionCount" =>
    let address := (params.headD .undef).asStr
    let (res, st) := backendStep st (.getTransactionCount address) (wallet.getTransactionCount address)
    (res.map (fun n => .str (hexStr n)), st)
  | "eth_getTransactionReceipt" =>
    let hash := (params.headD .undef).asStr
    let (res, st) := backendStep st (.getTransactionReceipt hash) (wallet.getTransactionReceipt hash)
    match res with
    | .error e => (.error e, st)
    | .ok none => (.ok .nullv, st)
    | .ok (some r) =>
      (.ok (.receipt
        { blockNumber := hexStr r.blockNumber
          cumulativeGasUsed := hexStr r.cumulativeGasUsed
          effectiveGasPrice := hexStr r.effectiveGasPrice
          gasUsed := hexStr r.gasUsed
          transactionIndex := r.transactionIndex
          type := r.type
          status := r.status }), st)
  | "wallet_switchEthereumChain" => (.ok .nullv, st)
  | "wallet_addEthereumChain" => (.ok .nullv, st)
  | "eth_subscribe" =>
    createSubscription st ((params.headD .undef).asStr) (params.getD 1 .undef)
  | "eth_unsubscribe" =>
    removeSubscription st ((params.headD .undef).asStr)
  | method =>
    (.error { message := "Unsupported method: " ++ method, code := none }, st)

/-- `RequestQueue.addRequest`: create a request with a fresh id and the given
submission time.  When auto-approve is on it is processed immediately and its
promise settled without touching the pending table; otherwise it is inserted
and every registered waiter is invoked with the serialized view, after which
the waiter list is emptied. -/
def addRequest (st : QueueState) (wallet : Wallet) (now : Nat)
    (method : String) (params : List JsParam) : String × QueueState :=
  let id := "req_" ++ toString st.nextId
  let request : WalletRequest := { id := id, method := method, params := params, timestamp := now }
  let st := { st with nextId := st.nextId + 1 }
  if st.autoApprove then
    let (res, st) := processRequest st wallet request
    (id, { st with completions := st.completions ++ [(id, res)] })
  else
    let st := { st with requests := st.requests ++ [request] }
    let serialized := serializeRequest request
    (id,
     { st with
        notified := st.notified ++ st.waiters.map (fun w => (w, serialized))
        waiters := [] })

/-- `RequestQueue.approveRequest`: remove the entry, dispatch it, settle the
original promise with the outcome, and hand the same outcome to the approver
(re-raising dispatch failures). -/
def approveRequest (st : QueueState) (wallet : Wallet) (id : String) :
    Except JsError JsValue × QueueState :=
  match st.requests.find? (fun r => r.id == id) with
  | none => (.error (notFoundError id), st)
  | some request =>
    let st := { st with requests := st.requests.filter (fun r => r.id != id) }
    let (res, st) := processRequest st wallet request
    (res, { st with completions := st.completions ++ [(id, res)] })

/-- `RequestQueue.rejectRequest`: remove the entry and settle the original
promise with a user-rejected error carrying the optional reason. -/
def rejectRequest (st : QueueState) (id : String) (reason : Option String) :
    Except JsError Unit × QueueState :=
  match st.requests.find? (fun r => r.id == id) with
  | none => (.error (notFoundError id), st)
  | some _ =>
    let error : JsError :=
      { message := reason.getD EIP1193_ERRORS.USER_REJECTED.message
        code := some EIP1193_ERRORS.USER_REJECTED.code }
    (.ok (),
     { st with
        requests := st.requests.filter (fun r => r.id != id)
        completions := st.completions ++ [(id, .error error)] })

/-- `RequestQueue.waitForRequest`: an already-pending request is returned
immediately; otherwise a fresh waiter callback is registered.  (The timeout
path, which removes the waiter and rejects, is the `waiterTimeout` step.) -/
def waitForRequest (st : QueueState) : Option SerializedWalletRequest × QueueState :=
  match getPendingRequests st with
  | existing :: _ => (some existing, st)
  | [] =>
    (none, { st with waiters := st.waiters ++ [st.nextWaiter], nextWaiter := st.nextWaiter + 1 })

/-- The timeout handler inside `waitForRequest`: splice the waiter out of the
list (the caller then observes a timeout error). -/
def waiterTimeout (st : QueueState) (w : Nat) : QueueState :=
  { st with waiters := st.waiters.filter (fun x => x != w) }

/-- `RequestQueue.clear`: reject every pending request with the disconnected
error and empty the table. -/
def clear (st : QueueState) : QueueState :=
  { st with
      completions := st.completions ++ st.requests.map (fun r =>
        (r.id, .error { message := "Queue cleared"
                        code := some EIP1193_ERRORS.DISCONNECTED.code }))
      requests := [] }

/-- `RequestQueue.setPolicy`: shallow spread-merge of a partial update, where
an absent (`none`) optional field keeps the current value. -/
def mergePolicy (current update : WalletPolicy) : WalletPolicy :=
  { mode := update.mode
    allowMethods := update.allowMethods <|> current.allowMethods
    denyMethods := update.denyMethods <|> current.denyMethods
    maxValueEth := update.maxValueEth <|> current.maxValueEth
    allowTo := update.allowTo <|> current.allowTo
    denyTo := update.denyTo <|> current.denyTo
    chainId := update.chainId <|> current.chainId }

/-- Request categories from `request-utils.ts`. -/
inductive RequestCategory where
  | connect
  | read
  | sign
  | transaction
  | chain
  | unknown
deriving Repr, DecidableEq

/-- `categorizeMethod` from `request-utils.ts`: pure lookup against the five
fixed method sets. -/
def categorizeMethod (method : String) : RequestCategory :=
  if ["eth_requestAccounts", "eth_accounts", "wallet_requestPermissions"].contains method then
    .connect
  else if ["eth_chainId", "net_version", "eth_blockNumber", "eth_gasPrice",
           "eth_getBalance", "eth_getTransactionCount", "eth_getTransactionReceipt",
           "eth_call", "eth_estimateGas", "eth_getBlockByNumber", "eth_getBlockByHash",
           "eth_getLogs"].contains method then
    .read
  else if ["personal_sign", "eth_sign", "eth_signTypedData", "eth_signTypedData_v4"].contains method then
    .sign
  else if ["eth_sendTransaction", "eth_sendRawTransaction"].contains method then
    .transaction
  else if ["wallet_switchEthereumChain", "wallet_addEthereumChain"].contains method then
    .chain
  else
    .unknown

/-- Risk flags from `request-utils.ts`. -/
inductive RiskFlag where
  | high_value
  | unknown_contract
  | data_present
deriving Repr, DecidableEq

/-- `KNOWN_SELECTORS` from `request-utils.ts`: the static 4-byte selector
table. -/
def KNOWN_SELECTORS : List (String × String) :=
  [("0xa9059cbb", "transfer"), ("0x23b872dd", "transferFrom"),
   ("0x095ea7b3", "approve"), ("0x40c10f19", "mint"), ("0x42966c68", "burn"),
   ("0x70a08231", "balanceOf"), ("0x18160ddd", "totalSupply"),
   ("0xdd62ed3e", "allowance"), ("0x313ce567", "decimals"),
   ("0x06fdde03", "name"), ("0x95d89b41", "symbol"), ("0x3593564c", "execute"),
   ("0x5ae401dc", "multicall"), ("0xac9650d8", "multicall"),
   ("0x38ed1739", "swapExactTokensForTokens"),
   ("0x7ff36ab5", "swapExactETHForTokens"),
   ("0x18cbafe5", "swapExactTokensForETH"),
   ("0xfb3bdb41", "swapETHForExactTokens"),
   ("0x4a25d94a", "swapTokensForExactETH"),
   ("0x8803dbee", "swapTokensForExactTokens")]

/-- `decodeSelector` from `request-utils.ts`. -/
def decodeSelector (data : Option String) : Option String :=
  match data with
  | none => none
  | some d =>
    if d = "" ∨ d.length < 10 then none
    else KNOWN_SELECTORS.lookup ((d.take 10).toLower)

/-- Left-pad a digit string with zeros to 6 characters. -/
def padTo6 (s : String) : String :=
  String.mk (List.replicate (6 - s.length) '0') ++ s

/-- `x.toFixed(6)` (round to nearest with ties up, then print with exactly 6
decimals). -/
def toFixed6 (q : JsNum) : String :=
  let n : Int := Int.fdiv (2 * (q.num * 1000000) + q.den) (2 * q.den)
  let m := n.natAbs
  let sign := if n < 0 then "-" else ""
  sign ++ toString (m / 1000000) ++ "." ++ padTo6 (toString (m % 1000000))

/-- `parseEthValue` from `request-utils.ts`: hex/decimal wei string to a
six-decimal ETH string (the `Number(wei) / 1e18` float division is modelled
exactly). -/
def parseEthValue (value : Option String) : Option String :=
  match value with
  | none => none
  | some v =>
    if v = "" then none
    else
      match jsBigInt v with
      | none => none
      | some wei => some (toFixed6 { num := (wei : Int), den := 1000000000000000000 })

/-- The options record taken by `analyzeRisks`/`enhanceRequest`. -/
structure RiskOptions where
  maxValueEth : Option JsNum := none
  knownContracts : Option (List String) := none
  expectedChainId : Option Nat := none
deriving Repr

/-- `analyzeRisks` from `request-utils.ts`. -/
def analyzeRisks (request : SerializedWalletRequest) (options : Option RiskOptions) :
    List RiskFlag :=
  let category := categorizeMethod request.method
  if category = .transaction ∧ ((request.params.headD .undef).truthy = true) then
    let txParams := (request.params.headD .undef).asTx
    let risks : List RiskFlag := []
    let risks := risks ++
      (match parseEthValue txParams.value with
       | some ethValue =>
         let threshold := (options.bind RiskOptions.maxValueEth).getD ⟨1, 10⟩
         match parseFloatNum ethValue with
         | some q => if q.gt threshold then [.high_value] else []
         | none => []
       | none => [])
    let risks := risks ++
      (match txParams.toAddr, options.bind RiskOptions.knownContracts with
       | some toA, some known =>
         if toA ≠ "" ∧ ¬ known.contains toA.toLower then [.unknown_contract] else []
       | _, _ => [])
    let risks := risks ++
      (match txParams.data with
       | some d => if d ≠ "" ∧ d ≠ "0x" then [.data_present] else []
       | none => [])
    risks
  else
    []

/-- `message.slice(0, 50) + "..."` truncation used by `summarizeRequest`. -/
def truncate50 (message : String) : String :=
  if message.length > 50 then message.take 50 ++ "..." else message

/-- `parseInt(s, 16)`: optional `0x` prefix, then the longest hex-digit
prefix; no digits parse as `NaN` (`none`). -/
def parseIntHex (s : String) : Option Nat :=
  let cs := match s.toList with
    | '0' :: 'x' :: rest => rest
    | cs => cs
  let digits := cs.takeWhile (fun c => (hexDigitVal c).isSome)
  if digits = [] then none
  else parseDigits 16 digits 0

/-- `summarizeRequest` from `request-utils.ts`. -/
def summarizeRequest (request : SerializedWalletRequest) : String :=
  match categorizeMethod request.method with
  | .connect => "Request to connect wallet and access accounts"
  | .read => "Read-only request: " ++ request.method
  | .sign =>
    if request.method = "personal_sign" then
      "Sign message: \"" ++ truncate50 ((request.params.headD .undef).asStr) ++ "\""
    else if (request.method.splitOn "TypedData").length > 1 then
      "Sign typed data (EIP-712)"
    else
      "Sign message request"
  | .transaction =>
    let p := request.params.headD .undef
    if p.truthy = false then "Send transaction (no params)"
    else
      let txParams := p.asTx
      let parts : List String := []
      let parts := parts ++
        (match txParams.toAddr with
         | some toA => if toA ≠ "" then ["to " ++ toA.take 10 ++ "..."] else []
         | none => [])
      let parts := parts ++
        (match parseEthValue txParams.value with
         | some ethValue =>
           match parseFloatNum ethValue with
           | some q => if q.gt ⟨0, 1⟩ then [ethValue ++ " ETH"] else []
           | none => []
         | none => [])
      let parts := parts ++
        (match decodeSelector txParams.data with
         | some functionName => ["calling " ++ functionName ++ "()"]
         | none =>
           match txParams.data with
           | some d => if d ≠ "" ∧ d ≠ "0x" then ["with data"] else []
           | none => [])
      let joined := String.intercalate ", " parts
      "Transaction: " ++ (if joined = "" then "empty tx" else joined)
  | .chain =>
    if request.method = "wallet_switchEthereumChain" then
      match request.params.headD .undef with
      | .chainObj (some cid) =>
        if cid ≠ "" then
          "Switch to chain " ++ (match parseIntHex cid with
            | some n => toString n
            | none => "NaN")
        else "Switch to chain unknown"
      | _ => "Switch to chain unknown"
    else
      "Chain management request"
  | .unknown => "Unknown method: " ++ request.method

/-- The `decoded` view attached by `enhanceRequest` for transactions. -/
structure DecodedTx where
  toAddr : Option String := none
  valueEth : Option String := none
  functionName : Option String := none
deriving Repr, DecidableEq

/-- `EnhancedRequest`: the read-only observation projection. -/
structure EnhancedRequest where
  id : String
  method : String
  params : List JsParam
  timestamp : Nat
  category : RequestCategory
  summary : String
  risk : List RiskFlag
  decoded : Option DecodedTx := none
deriving Repr

/-- `enhanceRequest` from `request-utils.ts`. -/
def enhanceRequest (request : SerializedWalletRequest) (options : Option RiskOptions) :
    EnhancedRequest :=
  let category := categorizeMethod request.method
  let base : EnhancedRequest :=
    { id := request.id, method := request.method, params := request.params,
      timestamp := request.timestamp, category := category,
      summary := summarizeRequest request, risk := analyzeRisks request options }
  if category = .transaction ∧ ((request.params.headD .undef).truthy = true) then
    let txParams := (request.params.headD .undef).asTx
    { base with decoded := some (DecodedTx.mk txParams.toAddr
        (parseEthValue txParams.value) (decodeSelector txParams.data)) }
  else
    base

/-- `RequestQueue.getEnhancedPendingRequests`. -/
def getEnhancedPendingRequests (st : QueueState) : List EnhancedRequest :=
  st.requests.map (fun req =>
    enhanceRequest (serializeRequest req)
      (some { maxValueEth := st.policy.maxValueEth, expectedChainId := st.policy.chainId }))

/-- The static chain-id-to-name table inside `getContext`. -/
def chainNames : List (Nat × String) :=
  [(1, "mainnet"), (5, "goerli"), (11155111, "sepolia"), (31337, "anvil"),
   (137, "polygon"), (42161, "arbitrum"), (10, "optimism"), (8453, "base")]

/-- The unified snapshot assembled by `getContext`. -/
structure WalletContext where
  activeAddress : String
  activeAccountIndex : Nat
  chainId : Nat
  chainName : String
  ethBalance : String
  policy : WalletPolicy
  pendingCount : Nat
  pendingSummary : List EnhancedRequest
deriving Repr

/-- `RequestQueue.getContext`: one snapshot of broker and backend state; a
failing balance read propagates as an error. -/
def getContext (st : QueueState) (wallet : Wallet) : Except JsError WalletContext :=
  let chainId := wallet.getChainId
  match wallet.getBalance with
  | .error e => .error e
  | .ok eth =>
    .ok { activeAddress := wallet.getAddress
          activeAccountIndex := wallet.getAccountIndex
          chainId := chainId
          chainName := (chainNames.lookup chainId).getD ("chain-" ++ toString chainId)
          ethBalance := eth
          policy := getPolicy st
          pendingCount := st.requests.length
          pendingSummary := getEnhancedPendingRequests st }

/-- Drain exit status (`DrainResult.status`). -/
inductive DrainStatus where
  | idle
  | timeout
  | maxDepth
deriving Repr, DecidableEq

/-- One entry of `DrainResult.approved`. -/
structure ApprovedItem where
  id : String
  method : String
  category : RequestCategory
  result : JsValue
  txHash : Option String := none
deriving Repr

/-- One entry of `DrainResult.rejected`. -/
structure RejectedItem where
  id : String
  method : String
  category : RequestCategory
  reason : String
deriving Repr, DecidableEq

/-- `DrainResult` from `types.ts`. -/
structure DrainResult where
  status : DrainStatus
  approved : List ApprovedItem
  rejected : List RejectedItem
  finalState : WalletContext
deriving Repr

/-- `DrainOptions` from `types.ts`. -/
structure DrainOptions where
  policy : Option WalletPolicy := none
  timeoutMs : Option Nat := none
  settleMs : Option Nat := none
  maxDepth : Option Nat := none
deriving Repr

/-- Stable insertion of a request into a timestamp-ascending list: the new
element goes before the first strictly later element, matching the stable
`sort((a, b) => a.timestamp - b.timestamp)` of the source. -/
def insertByTimestamp (r : WalletRequest) : List WalletRequest → List WalletRequest
  | [] => [r]
  | x :: xs =>
    if x.timestamp < r.timestamp then x :: insertByTimestamp r xs
    else r :: x :: xs

/-- Stable sort of the pending list by ascending `submittedAt` timestamp. -/
def sortByTimestamp (l : List WalletRequest) : List WalletRequest :=
  l.foldr insertByTimestamp []

/-- Shared exit path of the drain loop: the post-loop status computation
(`depth >= maxDepth ? maxDepth : timeout`) followed by the final
`getContext` snapshot. -/
def drainExit (wallet : Wallet) (maxDepth : Nat) (st : QueueState) (depth : Nat)
    (approved : List ApprovedItem) (rejected : List RejectedItem) :
    Except JsError DrainResult × QueueState :=
  let status : DrainStatus := if depth ≥ maxDepth then .maxDepth else .timeout
  match getContext st wallet with
  | .ok ctx => (.ok { status := status, approved := approved, rejected := rejected,
                      finalState := ctx }, st)
  | .error e => (.error e, st)

/-- The `while` loop of `RequestQueue.drainRequests`.  One clock sample is
consumed per iteration and stands for every `Date.now()` read of that
iteration; an exhausted trace reads as a time at or past the deadline, which
exits through the post-loop path exactly as the source does. -/
def drainLoop (wallet : Wallet) (deadline settleMs maxDepth : Nat) :
    List Nat → QueueState → Nat → Nat → List ApprovedItem → List RejectedItem →
    Except JsError DrainResult × QueueState
  | [], st, depth, _, approved, rejected => drainExit wallet maxDepth st depth approved rejected
  | t :: clock, st, depth, lastActivityTime, approved, rejected =>
    if t < deadline ∧ depth < maxDepth then
      match sortByTimestamp st.requests with
      | [] =>
        let timeSinceActivity := t - lastActivityTime
        if timeSinceActivity ≥ settleMs then
          match getContext st wallet with
          | .ok ctx => (.ok { status := .idle, approved := approved, rejected := rejected,
                              finalState := ctx }, st)
          | .error e => (.error e, st)
        else
          drainLoop wallet deadline settleMs maxDepth clock st depth lastActivityTime
            approved rejected
      | request :: _ =>
        let depth := depth + 1
        let lastActivityTime := t
        let category := categorizeMethod request.method
        match shouldAutoApprove st.policy request with
        | .error e => (.error e, st)
        | .ok decision =>
          if decision.approve then
            match approveRequest st wallet request.id with
            | (.ok result, st) =>
              let txHash :=
                if request.method = "eth_sendTransaction" then
                  match result with
                  | .str s => if s.startsWith "0x" then some s else none
                  | _ => none
                else none
              drainLoop wallet deadline settleMs maxDepth clock st depth lastActivityTime
                (approved ++ [{ id := request.id, method := request.method,
                                category := category, result := result, txHash := txHash }])
                rejected
            | (.error e, st) =>
              drainLoop wallet deadline settleMs maxDepth clock st depth lastActivityTime
                approved
                (rejected ++ [{ id := request.id, method := request.method,
                                category := category, reason := e.message }])
          else
            match rejectRequest st request.id decision.reason with
            | (.ok _, st) =>
              drainLoop wallet deadline settleMs maxDepth clock st depth lastActivityTime
                approved
                (rejected ++ [{ id := request.id, method := request.method,
                                category := category,
                                reason := decision.reason.getD "Rejected by policy" }])
            | (.error _, st) =>
              drainLoop wallet deadline settleMs maxDepth clock st depth lastActivityTime
                approved rejected
    else
      drainExit wallet maxDepth st depth approved rejected

/-- `RequestQueue.drainRequests`: option defaulting, the scoped one-shot
policy override, the drain loop, and the `finally` block that restores the
original policy on every exit path.  The head of the clock trace stands for
the `Date.now()` reads of the preamble (`deadline`, initial
`lastActivityTime`). -/
def drainRequests (st0 : QueueState) (wallet : Wallet) (options : DrainOptions)
    (clock : List Nat) : Except JsError DrainResult × QueueState :=
  let policyArg := options.policy.getD st0.policy
  let timeoutMs := options.timeoutMs.getD 15000
  let settleMs := options.settleMs.getD 300
  let maxDepth := options.maxDepth.getD 50
  let originalPolicy := st0.policy
  let st1 :=
    if options.policy.isSome then { st0 with policy := mergePolicy originalPolicy policyArg }
    else st0
  let t0 := clock.headD 0
  let deadline := t0 + timeoutMs
  let (res, st2) := drainLoop wallet deadline settleMs maxDepth clock.tail st1 0 t0 [] []
  let st3 :=
    if options.policy.isSome then { st2 with policy := originalPolicy }
    else st2
  (res, st3)

/-!
Helper lemmas and sample instances used by the claim proofs below.
-/

/-- Character-list prefix test used by the substring helper. -/
def startsWithChars : List Char → List Char → Bool
  | [], _ => true
  | _ :: _, [] => false
  | a :: pat, b :: text => a = b && startsWithChars pat text

/-- Character-list substring test used by the substring helper. -/
def containsChars (pat : List Char) : List Char → Bool
  | [] => startsWithChars pat []
  | c :: cs => startsWithChars pat (c :: cs) || containsChars pat cs

/-- Whether the string `s` mentions `pat` as a contiguous substring. -/
def mentions (s pat : String) : Bool :=
  containsChars pat.toList s.toList

/-- Dispatching a request never touches the pending table, the completion log,
the policy, the auto-approve flag, the waiter list or the notification log;
it only appends backend calls and updates the subscription bookkeeping. -/
theorem processRequest_frame (st : QueueState) (w : Wallet) (r : WalletRequest) :
    (processRequest st w r).2.requests = st.requests ∧
    (processRequest st w r).2.completions = st.completions ∧
    (processRequest st w r).2.policy = st.policy ∧
    (processRequest st w r).2.autoApprove = st.autoApprove ∧
    (processRequest st w r).2.waiters = st.waiters ∧
    (processRequest st w r).2.notified = st.notified := by
  unfold processRequest
  split <;> simp [backendStep, createSubscription, removeSubscription] <;>
    (repeat' split) <;> simp_all

/-- After filtering an id out of the table, lookups for that id fail. -/
theorem find?_filter_ne (l : List WalletRequest) (id : String) :
    (l.filter (fun r => r.id != id)).find? (fun r => r.id == id) = none := by
  rw [List.find?_eq_none]
  intro x hx
  simp [List.mem_filter] at hx
  simp [hx.2]

/-- A concrete signing backend used for witnesses: an Anvil-flavoured wallet
whose signature of a message `m` is the string `sig:` followed by `m`. -/
def sampleWallet : Wallet :=
  { getAddress := "0xf39Fd6e51aad88F6F4ce6aB8827279cffFb92266"
    getChainId := 31337
    getAccountIndex := 0
    getBalance := .ok "9999.99"
    getBalanceOf := fun _ => .ok "10000"
    sendTransaction := fun _ => .ok "0xhash"
    signMessage := fun m => .ok ("sig:" ++ m)
    signTypedData := fun _ => .ok "0xtypedsig"
    getBlockNumber := .ok 1
    getGasPrice := .ok 1
    estimateGas := fun _ => .ok 21000
    getTransactionCount := fun _ => .ok 0
    getTransactionReceipt := fun _ => .ok none }

/-!
Claim C2.
-/

/-- C2: for every request id, at most one of `approveRequest id` /
`rejectRequest id` succeeds, and at most once: after a successful approve or
reject of `id`, the pending table no longer contains `id` and every
subsequent approve or reject of the same id fails with the
`Request <id> not found` error. -/
theorem c2_exactly_once_resolution (st st' : QueueState) (w : Wallet) (id : String)
    (r1 r2 : Option String)
    (h : (∃ v, approveRequest st w id = (.ok v, st')) ∨
         rejectRequest st id r1 = (.ok (), st')) :
    getRequest st' id = none ∧
    (approveRequest st' w id).1 = .error (notFoundError id) ∧
    (rejectRequest st' id r2).1 = .error (notFoundError id) := by
  have hnone : st'.requests.find? (fun r => r.id == id) = none := by
    rcases h with ⟨v, hv⟩ | hr
    · unfold approveRequest at hv
      rcases hfind : st.requests.find? (fun r => r.id == id) with _ | req
      · rw [hfind] at hv
        simp at hv
      · rw [hfind] at hv
        dsimp only at hv
        rcases hpr : processRequest
            { st with requests := st.requests.filter (fun r => r.id != id) } w req with ⟨res, st2⟩
        rw [hpr] at hv
        dsimp only at hv
        have hreq :=
          (processRequest_frame
            { st with requests := st.requests.filter (fun r => r.id != id) } w req).1
        rw [hpr] at hreq
        dsimp only at hreq
        simp only [Prod.mk.injEq] at hv
        rw [← hv.2]
        show List.find? (fun r => r.id == id) st2.requests = none
        rw [hreq]
        exact find?_filter_ne st.requests id
    · unfold rejectRequest at hr
      rcases hfind : st.requests.find? (fun r => r.id == id) with _ | req
      · rw [hfind] at hr
        simp at hr
      · rw [hfind] at hr
        dsimp only at hr
        simp only [Prod.mk.injEq] at hr
        rw [← hr.2]
        exact find?_filter_ne st.requests id
  refine ⟨hnone, ?_, ?_⟩
  · unfold approveRequest
    rw [hnone]
  · unfold rejectRequest
    rw [hnone]

/-- A one-request queue used by the C2 witness. -/
def sampleStateC2 : QueueState :=
  { requests := [{ id := "req_0", method := "eth_chainId", params := [], timestamp := 0 }] }

/-- Witness for C2 at a concrete queue: approving `req_0` succeeds, after
which lookup fails and both a second approve and a reject report
`Request req_0 not found`. -/
theorem c2_exactly_once_resolution_witness :
    getRequest ((approveRequest sampleStateC2 sampleWallet "req_0").2) "req_0" = none ∧
    (approveRequest ((approveRequest sampleStateC2 sampleWallet "req_0").2)
        sampleWallet "req_0").1 = .error (notFoundError "req_0") ∧
    (rejectRequest ((approveRequest sampleStateC2 sampleWallet "req_0").2)
        "req_0" none).1 = .error (notFoundError "req_0") :=
  c2_exactly_once_resolution sampleStateC2 _ sampleWallet "req_0" none none
    (Or.inl ⟨JsValue.str "0x7a69", rfl⟩)

/-!
Claim C3.
-/

/-- C3: with the global auto-approve flag on, `addRequest` dispatches
immediately for every policy (including manual mode, which is never
consulted): the pending table is unchanged, the new id never appears among
the pending requests, and the submission promise is settled with some
outcome. -/
theorem c3_auto_approve_bypasses_queue (st : QueueState) (w : Wallet) (now : Nat)
    (method : String) (params : List JsParam)
    (hauto : st.autoApprove = true)
    (hfresh : ∀ r ∈ st.requests, r.id ≠ "req_" ++ toString st.nextId) :
    (addRequest st w now method params).2.requests = st.requests ∧
    (∀ s ∈ getPendingRequests (addRequest st w now method params).2,
        s.id ≠ (addRequest st w now method params).1) ∧
    ∃ outcome, ((addRequest st w now method params).1, outcome) ∈
        (addRequest st w now method params).2.completions := by
  unfold addRequest
  dsimp only
  rw [if_pos hauto]
  rcases hpr : processRequest { st with nextId := st.nextId + 1 } w
      { id := "req_" ++ toString st.nextId, method := method, params := params,
        timestamp := now } with ⟨res, st2⟩
  have hframe := processRequest_frame { st with nextId := st.nextId + 1 } w
      { id := "req_" ++ toString st.nextId, method := method, params := params,
        timestamp := now }
  rw [hpr] at hframe
  dsimp only at hframe
  refine ⟨hframe.1, ?_, ⟨res, by simp⟩⟩
  intro s hs
  simp only [getPendingRequests] at hs
  rw [hframe.1] at hs
  rcases List.mem_map.mp hs with ⟨r, hr, hser⟩
  have := hfresh r hr
  simpa [serializeRequest, ← hser] using this

/-- A manual-mode queue with auto-approve enabled, for the C3 witness. -/
def sampleStateC3 : QueueState :=
  { autoApprove := true, policy := { mode := .manual } }

/-- Witness for C3: under a manual-mode policy with auto-approve on,
submitting `eth_chainId` leaves the pending table empty, the id is not
pending, and the promise is settled. -/
theorem c3_auto_approve_bypasses_queue_witness :
    (addRequest sampleStateC3 sampleWallet 0 "eth_chainId" []).2.requests = [] ∧
    (∀ s ∈ getPendingRequests (addRequest sampleStateC3 sampleWallet 0 "eth_chainId" []).2,
        s.id ≠ (addRequest sampleStateC3 sampleWallet 0 "eth_chainId" []).1) ∧
    ∃ outcome, ((addRequest sampleStateC3 sampleWallet 0 "eth_chainId" []).1, outcome) ∈
        (addRequest sampleStateC3 sampleWallet 0 "eth_chainId" []).2.completions :=
  c3_auto_approve_bypasses_queue sampleStateC3 sampleWallet 0 "eth_chainId" [] rfl
    (by simp [sampleStateC3])

/-!
Claim C6.
-/

/-- C6 (amended): with auto-approve off, a single `addRequest` call notifies
every registered waiter — each exactly once, all with the serialized view of
the new request — and empties the waiter list; the new-arrival notification
is a broadcast, not a single-waiter release. -/
theorem c6_broadcast_notification (st : QueueState) (w : Wallet) (now : Nat)
    (method : String) (params : List JsParam)
    (hauto : st.autoApprove = false) :
    (addRequest st w now method params).2.waiters = [] ∧
    (addRequest st w now method params).2.notified =
      st.notified ++ st.waiters.map (fun wt =>
        (wt, serializeRequest { id := (addRequest st w now method params).1, method := method,
                                params := params, timestamp := now })) := by
  unfold addRequest
  dsimp only
  rw [if_neg (by simp [hauto])]
  exact ⟨rfl, rfl⟩

/-- A queue with two registered waiters and an empty pending table, for
C6. -/
def sampleStateC6 : QueueState :=
  { waiters := [0, 1] }

/-- Witness for the amended C6: both registered waiters are notified by one
submission and the waiter list is emptied. -/
theorem c6_broadcast_notification_witness :
    (addRequest sampleStateC6 sampleWallet 0 "eth_chainId" []).2.waiters = [] ∧
    (addRequest sampleStateC6 sampleWallet 0 "eth_chainId" []).2.notified =
      sampleStateC6.notified ++ sampleStateC6.waiters.map (fun wt =>
        (wt, serializeRequest { id := (addRequest sampleStateC6 sampleWallet 0 "eth_chainId" []).1,
                                method := "eth_chainId", params := [], timestamp := 0 })) :=
  c6_broadcast_notification sampleStateC6 sampleWallet 0 "eth_chainId" [] rfl

/-- C6 counterexample: with two waiters registered and an empty pending
table, one `addRequest` (a single new-submission event) notifies both
waiters and leaves zero registered — not exactly one released with the
other still registered, as the claim states. -/
theorem c6_counterexample :
    (addRequest sampleStateC6 sampleWallet 0 "eth_chainId" []).2.notified.length = 2 ∧
    (addRequest sampleStateC6 sampleWallet 0 "eth_chainId" []).2.waiters.length = 0 ∧
    ¬ ((addRequest sampleStateC6 sampleWallet 0 "eth_chainId" []).2.notified.length = 1 ∧
       (addRequest sampleStateC6 sampleWallet 0 "eth_chainId" []).2.waiters.length = 2 - 1) := by
  refine ⟨by decide, by decide, by decide⟩

/-!
Claim C7.
-/

/-- C7: `clear` empties the pending table (pending count zero) and settles
every previously-pending submit promise with the `Queue cleared` error
carrying the disconnected code 4900; a request submitted after `clear`
returns (auto-approve off) is queued normally into the table. -/
theorem c7_clear_semantics (st : QueueState) (w : Wallet) (now : Nat)
    (method : String) (params : List JsParam)
    (hauto : st.autoApprove = false) :
    (clear st).requests = [] ∧
    getPendingCount (clear st) = 0 ∧
    (∀ r ∈ st.requests,
       (r.id, Except.error { message := "Queue cleared", code := some 4900 })
         ∈ (clear st).completions) ∧
    EIP1193_ERRORS.DISCONNECTED.code = 4900 ∧
    (addRequest (clear st) w now method params).2.requests =
      [{ id := "req_" ++ toString st.nextId, method := method, params := params,
         timestamp := now }] := by
  refine ⟨rfl, rfl, ?_, rfl, ?_⟩
  · intro r hr
    simp only [clear, EIP1193_ERRORS, List.mem_append, List.mem_map]
    exact Or.inr ⟨r, hr, rfl⟩
  · unfold addRequest
    dsimp only [clear]
    rw [if_neg (by simp [hauto])]
    rfl

/-- A queue with one pending request, for the C7 witness. -/
def sampleStateC7 : QueueState :=
  { requests := [{ id := "req_3", method := "eth_sign",
                   params := [JsParam.str "0xabc", JsParam.str "0x6869"], timestamp := 2 }]
    nextId := 7 }

/-- Witness for C7 at a concrete queue: the table empties, the pending
promise fails with code 4900, and a later submission queues normally. -/
theorem c7_clear_semantics_witness :
    (clear sampleStateC7).requests = [] ∧
    ("req_3", Except.error { message := "Queue cleared", code := some 4900 })
      ∈ (clear sampleStateC7).completions ∧
    (addRequest (clear sampleStateC7) sampleWallet 5 "eth_chainId" []).2.requests =
      [{ id := "req_7", method := "eth_chainId", params := [], timestamp := 5 }] :=
  ⟨(c7_clear_semantics sampleStateC7 sampleWallet 5 "eth_chainId" [] rfl).1,
   (c7_clear_semantics sampleStateC7 sampleWallet 5 "eth_chainId" [] rfl).2.2.1
     { id := "req_3", method := "eth_sign",
       params := [JsParam.str "0xabc", JsParam.str "0x6869"], timestamp := 2 }
     (List.mem_singleton.mpr rfl),
   (c7_clear_semantics sampleStateC7 sampleWallet 5 "eth_chainId" [] rfl).2.2.2.2⟩

/-!
Claim C8.
-/

/-- C8: for a pending id, `rejectRequest id "Suspicious"` succeeds and
settles the submitter promise with an error whose message is exactly
`Suspicious` and whose code is the user-rejected code 4001; with no reason
given, the message is the default user-rejected message and the code is
still 4001. -/
theorem c8_reject_reason_code (st : QueueState) (id : String) (req : WalletRequest)
    (h : st.requests.find? (fun r => r.id == id) = some req) :
    (rejectRequest st id (some "Suspicious")).1 = .ok () ∧
    (rejectRequest st id (some "Suspicious")).2.completions =
      st.completions ++ [(id, .error { message := "Suspicious", code := some 4001 })] ∧
    (rejectRequest st id none).1 = .ok () ∧
    (rejectRequest st id none).2.completions =
      st.completions ++
        [(id, .error { message := "User rejected the request", code := some 4001 })] ∧
    EIP1193_ERRORS.USER_REJECTED.code = 4001 := by
  unfold rejectRequest
  rw [h]
  exact ⟨rfl, rfl, rfl, rfl, rfl⟩

/-- Witness for C8 at the concrete one-request queue. -/
theorem c8_reject_reason_code_witness :
    (rejectRequest sampleStateC7 "req_3" (some "Suspicious")).1 = .ok () ∧
    (rejectRequest sampleStateC7 "req_3" (some "Suspicious")).2.completions =
      sampleStateC7.completions ++
        [("req_3", .error { message := "Suspicious", code := some 4001 })] ∧
    (rejectRequest sampleStateC7 "req_3" none).1 = .ok () ∧
    (rejectRequest sampleStateC7 "req_3" none).2.completions =
      sampleStateC7.completions ++
        [("req_3", .error { message := "User rejected the request", code := some 4001 })] ∧
    EIP1193_ERRORS.USER_REJECTED.code = 4001 :=
  c8_reject_reason_code sampleStateC7 "req_3"
    { id := "req_3", method := "eth_sign",
      params := [JsParam.str "0xabc", JsParam.str "0x6869"], timestamp := 2 } (by decide)

/-!
Claim C9.
-/

/-- C9: a `drainRequests` call that passes a one-shot policy override leaves
the stored policy equal to the pre-call policy on every exit path — the
statement quantifies over all queue states, wallets, options and clock
traces, so it covers idle, timeout and maxDepth returns as well as error
propagation out of the drain loop. -/
theorem c9_policy_restored_after_drain (st : QueueState) (w : Wallet)
    (options : DrainOptions) (clock : List Nat) (p : WalletPolicy)
    (hp : options.policy = some p) :
    (drainRequests st w options clock).2.policy = st.policy := by
  unfold drainRequests
  dsimp only
  rcases hd : drainLoop w (clock.headD 0 + options.timeoutMs.getD 15000)
      (options.settleMs.getD 300) (options.maxDepth.getD 50) clock.tail
      (if options.policy.isSome then
        { st with policy := mergePolicy st.policy (options.policy.getD st.policy) }
       else st) 0 (clock.headD 0) [] [] with ⟨res, st2⟩
  simp [hp]

/-- Witness for C9: a concrete drain with a manual-mode override restores the
default policy stored beforehand. -/
theorem c9_policy_restored_after_drain_witness :
    (drainRequests { requests := [] } sampleWallet
        { policy := some { mode := .manual } } [0]).2.policy =
      ({ requests := [] } : QueueState).policy :=
  c9_policy_restored_after_drain { requests := [] } sampleWallet
    { policy := some { mode := .manual } } [0] { mode := .manual } rfl

/-!
Claim C10.
-/

/-- C10: a `drainRequests` call on a broker whose pending table is empty for
the whole call can return status `timeout` with empty approved and rejected
lists — here with `timeoutMs = 0`, whose deadline expires at the first loop
check — so a `timeout` drain status does not imply any request was pending
or arriving. -/
theorem c10_timeout_with_empty_queue (st : QueueState) (w : Wallet) (bal : String)
    (_hempty : st.requests = []) (hbal : w.getBalance = .ok bal) :
    ∃ ctx, drainRequests st w { timeoutMs := some 0 } [0] =
      (.ok { status := .timeout, approved := [], rejected := [], finalState := ctx }, st) := by
  refine ⟨{ activeAddress := w.getAddress, activeAccountIndex := w.getAccountIndex,
            chainId := w.getChainId,
            chainName := ((chainNames.lookup w.getChainId).getD
              ("chain-" ++ toString w.getChainId)),
            ethBalance := bal, policy := getPolicy st, pendingCount := st.requests.length,
            pendingSummary := getEnhancedPendingRequests st }, ?_⟩
  unfold drainRequests
  dsimp only
  rw [if_neg (by simp)]
  unfold drainLoop drainExit getContext
  rw [hbal]
  simp

/-- Witness for C10 at a concrete empty queue and wallet. -/
theorem c10_timeout_with_empty_queue_witness :
    ∃ ctx, drainRequests { requests := [] } sampleWallet { timeoutMs := some 0 } [0] =
      (.ok { status := .timeout, approved := [], rejected := [], finalState := ctx },
       ({ requests := [] } : QueueState)) :=
  c10_timeout_with_empty_queue { requests := [] } sampleWallet "9999.99" rfl rfl

/-!
Claim C4.
-/

/-- The recipient checks of the transaction branch never approve: every
normally-returned decision is a denial. -/
theorem recipientChecks_never_approves (p : WalletPolicy) (m : String)
    (tx : TransactionParams) (d : ApproveDecision)
    (h : recipientChecks p m tx = .ok d) : d.approve = false := by
  unfold recipientChecks notInAllowList at h
  dsimp only at h
  split at h
  · split at h
    · split at h
      · simp at h
        simp [← h]
      · split at h
        · split at h
          · simp at h; simp [← h]
          · simp at h; simp [← h]
        · simp at h; simp [← h]
    · split at h
      · split at h
        · simp at h; simp [← h]
        · simp at h; simp [← h]
      · simp at h; simp [← h]
  · split at h
    · split at h
      · simp at h; simp [← h]
      · simp at h; simp [← h]
    · simp at h; simp [← h]

/-- The whole transaction branch (value cap then recipient checks) never
approves: every normally-returned decision is a denial. -/
theorem valueCapCheck_never_approves (p : WalletPolicy) (m : String)
    (tx : TransactionParams) (d : ApproveDecision)
    (h : valueCapCheck p m tx = .ok d) : d.approve = false := by
  unfold valueCapCheck at h
  split at h
  · split at h
    · split at h
      · simp at h
      · split at h
        · simp at h; simp [← h]
        · exact recipientChecks_never_approves p m tx d h
    · exact recipientChecks_never_approves p m tx d h
  · exact recipientChecks_never_approves p m tx d h

/-- A policy whose method allow list contains `eth_sendTransaction` while
the recipient `0xbad` is on both the recipient allow and deny lists. -/
def allowBeatsDenyToPolicy : WalletPolicy :=
  { mode := .auto, allowMethods := some ["eth_sendTransaction"], denyMethods := some []
    maxValueEth := some ⟨1, 10⟩, allowTo := some ["0xbad"], denyTo := some ["0xbad"] }

/-- A transaction request whose recipient is the deny-listed `0xbad`. -/
def denyToReq : WalletRequest :=
  { id := "req_0", method := "eth_sendTransaction"
    params := [.tx { toAddr := some "0xbad", value := some "0x0" }], timestamp := 0 }

/-- C4 counterexample: the claim says a transaction recipient present in
`denyTo` is denied even if also present in `allowTo`, but when the method is
allow-listed the decision approves before any recipient rule is consulted:
with `eth_sendTransaction` in `allowMethods` and recipient `0xbad` on both
recipient lists, `shouldAutoApprove` approves. -/
theorem c4_counterexample :
    optIncludes allowBeatsDenyToPolicy.denyTo "0xbad" = true ∧
    optIncludes allowBeatsDenyToPolicy.allowTo "0xbad" = true ∧
    (denyToReq.params.headD .undef).asTx.toAddr = some "0xbad" ∧
    shouldAutoApprove allowBeatsDenyToPolicy denyToReq =
      .ok { approve := true, reason := none } :=
  ⟨by decide, by decide, by decide, by rfl⟩

/-- C4 (amended): in `shouldAutoApprove`, deny rules win over allow rules
for methods and the default is deny — (1) a method on the deny list is never
approved (the deny list is checked before the allow list); (2) for a
transaction whose method is not allow-listed, a recipient on the deny list
is denied even if also on the recipient allow list (method allow-listing,
checked earlier, is the only way such a transaction can be approved);
(3) there is no implicit allow: every approval requires auto mode and an
allow-listed, non-deny-listed method; (4) a request that matches no rule at
all is denied with the `not in allow list` reason. -/
theorem c4_deny_precedence_amended :
    (∀ (p : WalletPolicy) (r : WalletRequest) (d : ApproveDecision),
       optIncludes p.denyMethods r.method = true →
       shouldAutoApprove p r = .ok d → d.approve = false) ∧
    (∀ (p : WalletPolicy) (r : WalletRequest) (tx : TransactionParams) (a : String)
       (d : ApproveDecision),
       r.method = "eth_sendTransaction" →
       r.params.headD .undef = .tx tx →
       tx.toAddr = some a →
       optIncludes p.denyTo a = true →
       optIncludes p.allowMethods r.method = false →
       shouldAutoApprove p r = .ok d → d.approve = false) ∧
    (∀ (p : WalletPolicy) (r : WalletRequest) (d : ApproveDecision),
       shouldAutoApprove p r = .ok d → d.approve = true →
       p.mode = .auto ∧ optIncludes p.allowMethods r.method = true ∧
       optIncludes p.denyMethods r.method = false) ∧
    (∀ (p : WalletPolicy) (r : WalletRequest),
       p.mode = .auto →
       optIncludes p.denyMethods r.method = false →
       optIncludes p.allowMethods r.method = false →
       ¬ (r.method = "eth_sendTransaction" ∧ ((r.params.headD .undef).truthy = true)) →
       shouldAutoApprove p r =
         .ok { approve := false
               reason := some ("Method " ++ r.method ++ " not in allow list") }) := by
  refine ⟨?_, ?_, ?_, ?_⟩
  · intro p r d hdeny h
    unfold shouldAutoApprove at h
    by_cases hm : p.mode = .manual
    · rw [if_pos hm] at h
      simp at h
      simp [← h]
    · rw [if_neg hm] at h
      dsimp only at h
      rw [if_pos hdeny] at h
      simp at h
      simp [← h]
  · intro p r tx a d hmeth hparam htoA hdenyTo hallow h
    unfold shouldAutoApprove at h
    by_cases hm : p.mode = .manual
    · rw [if_pos hm] at h
      simp at h
      simp [← h]
    · rw [if_neg hm] at h
      dsimp only at h
      by_cases hd2 : optIncludes p.denyMethods r.method = true
      · rw [if_pos hd2] at h
        simp at h
        simp [← h]
      · rw [if_neg hd2] at h
        rw [if_neg (by simp [hallow])] at h
        rw [if_pos ⟨hmeth, by rw [hparam]; rfl⟩] at h
        exact valueCapCheck_never_approves _ _ _ _ h
  · intro p r d h ha
    unfold shouldAutoApprove at h
    by_cases hm : p.mode = .manual
    · rw [if_pos hm] at h
      simp at h
      rw [← h] at ha
      simp at ha
    · rw [if_neg hm] at h
      dsimp only at h
      by_cases hd2 : optIncludes p.denyMethods r.method = true
      · rw [if_pos hd2] at h
        simp at h
        rw [← h] at ha
        simp at ha
      · rw [if_neg hd2] at h
        by_cases hal : optIncludes p.allowMethods r.method = true
        · refine ⟨?_, hal, by simpa using hd2⟩
          cases hmode : p.mode
          · exact absurd hmode hm
          · rfl
        · rw [if_neg hal] at h
          split at h
          · have hfalse := valueCapCheck_never_approves _ _ _ _ h
            rw [hfalse] at ha
            simp at ha
          · unfold notInAllowList at h
            simp at h
            rw [← h] at ha
            simp at ha
  · intro p r hmode hdeny hallow htx
    unfold shouldAutoApprove
    rw [if_neg (by simp [hmode])]
    dsimp only
    rw [if_neg (by simp [hdeny]), if_neg (by simp [hallow]), if_neg htx]
    rfl

/-- A deny-listed-method policy for the C4 witness. -/
def denyMethodPolicy : WalletPolicy :=
  { mode := .auto, allowMethods := some ["eth_sign"], denyMethods := some ["eth_sign"] }

/-- A recipient-deny policy without method allow-listing, for the C4
witness. -/
def denyToPolicy : WalletPolicy :=
  { mode := .auto, allowTo := some ["0xbad"], denyTo := some ["0xbad"] }

/-- Witness for the amended C4, exercising each conjunct at concrete
inputs: a method on both lists is denied; a non-allow-listed transaction to
a deny-listed recipient is denied; an approval implies auto mode plus
allow-listing; an unmatched method gets the `not in allow list` reason. -/
theorem c4_deny_precedence_amended_witness :
    ({ approve := false, reason := some "Method eth_sign is in deny list" }
        : ApproveDecision).approve = false ∧
    ({ approve := false, reason := some "Recipient is in deny list" }
        : ApproveDecision).approve = false ∧
    (DEFAULT_POLICY.mode = .auto ∧
      optIncludes DEFAULT_POLICY.allowMethods "eth_chainId" = true ∧
      optIncludes DEFAULT_POLICY.denyMethods "eth_chainId" = false) ∧
    shouldAutoApprove { mode := .auto }
        { id := "req_9", method := "foo_bar", params := [], timestamp := 0 } =
      .ok { approve := false, reason := some "Method foo_bar not in allow list" } :=
  ⟨c4_deny_precedence_amended.1 denyMethodPolicy
      { id := "req_1", method := "eth_sign", params := [], timestamp := 0 }
      { approve := false, reason := some "Method eth_sign is in deny list" }
      (by decide) (by rfl),
   c4_deny_precedence_amended.2.1 denyToPolicy denyToReq
      { toAddr := some "0xbad", value := some "0x0" } "0xbad"
      { approve := false, reason := some "Recipient is in deny list" }
      rfl rfl rfl (by decide) (by decide) (by rfl),
   c4_deny_precedence_amended.2.2.1 DEFAULT_POLICY
      { id := "req_2", method := "eth_chainId", params := [], timestamp := 0 }
      { approve := true, reason := none } (by rfl) rfl,
   c4_deny_precedence_amended.2.2.2 { mode := .auto }
      { id := "req_9", method := "foo_bar", params := [], timestamp := 0 }
      rfl (by decide) (by decide) (by decide)⟩

/-!
Claim C5.
-/

/-- The `personal_sign` submission of the end-to-end scenario: the hex
encoding of `Hello` plus an address. -/
def personalSignParams : List JsParam := [.str "0x48656c6c6f", .str "0xabc"]

/-- The queue state right after submitting the scenario request to a fresh
manual-mode broker with auto-approve off. -/
def personalSignState (w : Wallet) : QueueState :=
  (addRequest { policy := { mode := .manual } } w 0 "personal_sign" personalSignParams).2

/-- C5 (amended): the scenario request appears in `getPendingRequests` with
method `personal_sign`; after `approveRequest`, the backend sign-message
operation is invoked with the raw first parameter `0x48656c6c6f` — the hex
string is passed through verbatim, not UTF-8 decoded — and the original
promise resolves with the signature the backend returns for that raw
string. -/
theorem c5_personal_sign_flow_amended (w : Wallet) (sig : String)
    (hsig : w.signMessage "0x48656c6c6f" = .ok sig) :
    getPendingRequests (personalSignState w) =
      [{ id := "req_0", method := "personal_sign", params := personalSignParams,
         timestamp := 0 }] ∧
    (approveRequest (personalSignState w) w "req_0").1 = .ok (.str sig) ∧
    (approveRequest (personalSignState w) w "req_0").2.backendCalls =
      [.signMessage "0x48656c6c6f"] ∧
    ("req_0", Except.ok (JsValue.str sig)) ∈
      (approveRequest (personalSignState w) w "req_0").2.completions := by
  have hform : approveRequest (personalSignState w) w "req_0" =
      ((w.signMessage "0x48656c6c6f").map JsValue.str,
       { requests := [], autoApprove := false, waiters := [], nextWaiter := 0,
         subscriptions := [], policy := { mode := .manual }, nextId := 1,
         completions := [("req_0", (w.signMessage "0x48656c6c6f").map JsValue.str)],
         notified := [], backendCalls := [.signMessage "0x48656c6c6f"] }) := rfl
  have happrove : approveRequest (personalSignState w) w "req_0" =
      (Except.ok (JsValue.str sig),
       { requests := [], autoApprove := false, waiters := [], nextWaiter := 0,
         subscriptions := [], policy := { mode := .manual }, nextId := 1,
         completions := [("req_0", Except.ok (JsValue.str sig))], notified := [],
         backendCalls := [.signMessage "0x48656c6c6f"] }) := by
    rw [hform, hsig]
    rfl
  refine ⟨rfl, ?_, ?_, ?_⟩
  · rw [happrove]
  · rw [happrove]
  · rw [happrove]
    simp

/-- Witness for the amended C5 at the concrete sample backend, whose
signature of `m` is the string `sig:` followed by `m`. -/
theorem c5_personal_sign_flow_amended_witness :
    getPendingRequests (personalSignState sampleWallet) =
      [{ id := "req_0", method := "personal_sign", params := personalSignParams,
         timestamp := 0 }] ∧
    (approveRequest (personalSignState sampleWallet) sampleWallet "req_0").1 =
      .ok (.str "sig:0x48656c6c6f") ∧
    (approveRequest (personalSignState sampleWallet) sampleWallet "req_0").2.backendCalls =
      [.signMessage "0x48656c6c6f"] ∧
    ("req_0", Except.ok (JsValue.str "sig:0x48656c6c6f")) ∈
      (approveRequest (personalSignState sampleWallet) sampleWallet "req_0").2.completions :=
  c5_personal_sign_flow_amended sampleWallet "sig:0x48656c6c6f" rfl

/-- C5 counterexample: in the same scenario the claim asserts the backend is
invoked with the decoded string `Hello`; in fact the trace records exactly
one sign-message call, with the raw string `0x48656c6c6f`, and no call with
`Hello`, and the promise resolves with the signature of the raw string. -/
theorem c5_counterexample :
    (approveRequest (personalSignState sampleWallet) sampleWallet "req_0").2.backendCalls =
      [.signMessage "0x48656c6c6f"] ∧
    BackendCall.signMessage "Hello" ∉
      (approveRequest (personalSignState sampleWallet) sampleWallet "req_0").2.backendCalls ∧
    (approveRequest (personalSignState sampleWallet) sampleWallet "req_0").2.completions =
      [("req_0", Except.ok (JsValue.str "sig:0x48656c6c6f"))] :=
  ⟨by rfl, by decide, by rfl⟩

/-!
Claim C1.
-/

/-- The 2-ETH transaction request of the value-cap scenario: its first param
carries `value = 0x1bc16d674ec80000`. -/
def valueCapReq : WalletRequest :=
  { id := "req_0", method := "eth_sendTransaction"
    params := [.tx { toAddr := some "0xaaa", value := some "0x1bc16d674ec80000" }]
    timestamp := 0 }

/-- With a 0.1 ETH cap, the value-cap check denies the 2-ETH transaction
with the reason naming the cap. -/
theorem valueCapCheck_two_eth (p : WalletPolicy) (m : String)
    (hmax : p.maxValueEth = some ⟨1, 10⟩) :
    valueCapCheck p m { toAddr := some "0xaaa", value := some "0x1bc16d674ec80000" } =
      .ok { approve := false
            reason := some "Transaction value exceeds max (0.1 ETH)" } := by
  unfold valueCapCheck
  dsimp only
  rw [if_pos (by decide)]
  rw [show jsBigInt "0x1bc16d674ec80000" = some 2000000000000000000 from by decide]
  dsimp only
  rw [hmax]
  dsimp only
  rw [if_pos (by decide)]
  rfl

/-- Under an auto-mode policy with a 0.1 ETH cap whose method lists do not
mention `eth_sendTransaction`, the policy decision on the 2-ETH request is
the cap denial. -/
theorem shouldAutoApprove_value_cap (p : WalletPolicy)
    (hmode : p.mode = .auto)
    (hmax : p.maxValueEth = some ⟨1, 10⟩)
    (hallow : optIncludes p.allowMethods "eth_sendTransaction" = false)
    (hdeny : optIncludes p.denyMethods "eth_sendTransaction" = false) :
    shouldAutoApprove p valueCapReq =
      .ok { approve := false
            reason := some "Transaction value exceeds max (0.1 ETH)" } := by
  unfold shouldAutoApprove
  rw [if_neg (by simp [hmode])]
  dsimp only
  rw [if_neg (by simp [show valueCapReq.method = "eth_sendTransaction" from rfl, hdeny])]
  rw [if_neg (by simp [show valueCapReq.method = "eth_sendTransaction" from rfl, hallow])]
  rw [if_pos ⟨rfl, rfl⟩]
  exact valueCapCheck_two_eth p valueCapReq.method hmax

/-- C1 (amended): under any auto-mode policy with `maxValueEth = 0.1` whose
allow and deny method lists omit `eth_sendTransaction`, a drain over a
pending 2-ETH `eth_sendTransaction` request approves nothing, records
exactly one rejected entry whose reason mentions the configured 0.1 maximum,
and settles the submitter promise with that reason and the user-rejected
code. -/
theorem c1_value_cap_rejected_under_drain (p : WalletPolicy) (w : Wallet) (bal : String)
    (hmode : p.mode = .auto)
    (hmax : p.maxValueEth = some ⟨1, 10⟩)
    (hallow : optIncludes p.allowMethods "eth_sendTransaction" = false)
    (hdeny : optIncludes p.denyMethods "eth_sendTransaction" = false)
    (hbal : w.getBalance = .ok bal) :
    ∃ res st',
      drainRequests { requests := [valueCapReq], policy := p } w {} [0, 1] = (.ok res, st') ∧
      res.approved = [] ∧
      res.rejected = [{ id := "req_0", method := "eth_sendTransaction",
                        category := .transaction,
                        reason := "Transaction value exceeds max (0.1 ETH)" }] ∧
      mentions "Transaction value exceeds max (0.1 ETH)" "0.1" = true ∧
      ("req_0", Except.error { message := "Transaction value exceeds max (0.1 ETH)",
                               code := some 4001 }) ∈ st'.completions := by
  have hdecision := shouldAutoApprove_value_cap p hmode hmax hallow hdeny
  refine ⟨{ status := .timeout, approved := []
            rejected := [{ id := "req_0", method := "eth_sendTransaction",
                           category := .transaction,
                           reason := "Transaction value exceeds max (0.1 ETH)" }]
            finalState :=
              { activeAddress := w.getAddress, activeAccountIndex := w.getAccountIndex
                chainId := w.getChainId
                chainName := (chainNames.lookup w.getChainId).getD
                  ("chain-" ++ toString w.getChainId)
                ethBalance := bal, policy := p, pendingCount := 0, pendingSummary := [] } },
          { requests := [], autoApprove := false, waiters := [], nextWaiter := 0
            subscriptions := [], policy := p, nextId := 0
            completions := [("req_0",
              Except.error { message := "Transaction value exceeds max (0.1 ETH)",
                             code := some 4001 })]
            notified := [], backendCalls := [] },
          ?_, rfl, rfl, by decide, by simp⟩
  unfold drainRequests
  dsimp only
  rw [if_neg (by decide), if_neg (by decide)]
  simp only [drainLoop]
  rw [if_pos (by decide)]
  rw [show sortByTimestamp ({ requests := [valueCapReq], policy := p } : QueueState).requests =
        [valueCapReq] from rfl]
  dsimp only
  rw [hdecision]
  dsimp only
  rw [if_neg (by decide)]
  rw [show rejectRequest { requests := [valueCapReq], policy := p } valueCapReq.id
        (some "Transaction value exceeds max (0.1 ETH)") =
      (.ok (),
       { requests := [], autoApprove := false, waiters := [], nextWaiter := 0
         subscriptions := [], policy := p, nextId := 0
         completions := [("req_0",
           Except.error { message := "Transaction value exceeds max (0.1 ETH)",
                          code := some 4001 })]
         notified := [], backendCalls := [] }) from rfl]
  dsimp only
  unfold drainExit
  rw [if_neg (by decide)]
  unfold getContext
  rw [hbal]
  rfl

/-- Witness for the amended C1: the scenario run end to end at a concrete
auto-mode policy and backend. -/
theorem c1_value_cap_rejected_under_drain_witness :
    ∃ res st',
      drainRequests { requests := [valueCapReq],
                      policy := { mode := .auto, maxValueEth := some ⟨1, 10⟩ } }
          sampleWallet {} [0, 1] = (.ok res, st') ∧
      res.approved = [] ∧
      res.rejected = [{ id := "req_0", method := "eth_sendTransaction",
                        category := .transaction,
                        reason := "Transaction value exceeds max (0.1 ETH)" }] ∧
      mentions "Transaction value exceeds max (0.1 ETH)" "0.1" = true ∧
      ("req_0", Except.error { message := "Transaction value exceeds max (0.1 ETH)",
                               code := some 4001 }) ∈ st'.completions :=
  c1_value_cap_rejected_under_drain { mode := .auto, maxValueEth := some ⟨1, 10⟩ }
    sampleWallet "9999.99" rfl rfl (by decide) (by decide) rfl

/-- A manual-mode policy with the same 0.1 cap and method lists omitting
`eth_sendTransaction`, used by the C1 counterexample. -/
def manualCapPolicy : WalletPolicy :=
  { mode := .manual, maxValueEth := some ⟨1, 10⟩
    allowMethods := some [], denyMethods := some [] }

/-- C1 counterexample: the claim quantifies over every policy with the 0.1
cap and `eth_sendTransaction` on neither method list, but for such a policy
in manual mode the drained 2-ETH request is rejected with reason
`Policy mode is manual`, which does not mention the configured maximum. -/
theorem c1_counterexample :
    manualCapPolicy.maxValueEth = some ⟨1, 10⟩ ∧
    optIncludes manualCapPolicy.allowMethods "eth_sendTransaction" = false ∧
    optIncludes manualCapPolicy.denyMethods "eth_sendTransaction" = false ∧
    ((drainRequests { requests := [valueCapReq], policy := manualCapPolicy }
        sampleWallet {} [0, 1]).1.map
      (fun res => res.rejected.map RejectedItem.reason)) = .ok ["Policy mode is manual"] ∧
    mentions "Policy mode is manual" "0.1" = false :=
  ⟨rfl, by decide, by decide, by rfl, by decide⟩

end WalletTester
